import Mathlib

set_option maxRecDepth 100000

/-!
Shallow embedding of `scripts/generate_test_doc.py`, the single source file of
the VoidReader repository: a generator that assembles a large markdown test
document from a fixed template plus procedurally generated sections until a
line-count threshold is met, then appends a statistics footer.

Randomness is modelled by a stream `r : Nat → Nat` of draws, consumed in the
order the Python code calls `random.randint` / `random.choice`; each draw is
reduced into the required range with `%`, so every reachable run of the script
corresponds to some stream and conversely.  The `while` loop is embedded as a
fuel-indexed recursion (the standard total embedding of a `while` loop); fuel
`target` is proved sufficient, and termination of the source loop appears as
the fuel-stability and exit-condition theorems below.
-/

namespace VoidReader

/-- The fixed template header string (`template` in the source), verbatim. -/
def template : String := "# Large Test Document - 50,000 Lines\n\nThis document is generated for performance testing. It contains varied markdown content:\nheadings, code blocks, tables, lists, blockquotes, and inline formatting.\n\n---\n\n## Section 1: Introduction\n\nLorem ipsum dolor sit amet, consectetur adipiscing elit. Sed do eiusmod tempor incididunt ut labore et dolore magna aliqua. Ut enim ad minim veniam, quis nostrud exercitation ullamco laboris.\n\n### Key Features\n\n- Feature one with **bold text** and *italic text*\n- Feature two with `inline code` examples\n- Feature three with [links](https://example.com)\n- Feature four with ~~strikethrough~~ text\n\n### Code Example\n\n```swift\nstruct PerformanceTest \x7b\n    let iterations: Int\n    var results: [Double] = []\n\n    mutating func run() \x7b\n        for i in 0..<iterations \x7b\n            let start = CFAbsoluteTimeGetCurrent()\n            // Simulate work\n            let _ = (0..<1000).reduce(0, +)\n            let elapsed = CFAbsoluteTimeGetCurrent() - start\n            results.append(elapsed)\n        \x7d\n    \x7d\n\x7d\n```\n\n### Data Table\n\n| Metric | Value | Unit | Notes |\n|--------|-------|------|-------|\n| Scroll FPS | 60 | fps | Target |\n| Render Time | 500 | ms | Max allowed |\n| Memory | 100 | MB | View layer |\n\n> This is a blockquote that spans multiple lines.\n> It contains important information about the test.\n> Remember to measure before and after optimization.\n\n---\n\n## Section 2: Content Block\n\nParagraph with various formatting: **bold**, *italic*, `code`, and [link](https://test.com).\n\n- [ ] Task item unchecked\n- [x] Task item checked\n- [ ] Another unchecked task\n\n1. Ordered item one\n2. Ordered item two\n3. Ordered item three\n   - Nested unordered\n   - Another nested\n\n```python\ndef fibonacci(n):\n    if n <= 1:\n        return n\n    return fibonacci(n-1) + fibonacci(n-2)\n\n# Calculate first 10 fibonacci numbers\nfor i in range(10):\n    print(f\"F(\x7bi\x7d) = \x7bfibonacci(i)\x7d\")\n```\n\n### Subsection 2.1\n\nMore content here with inline `code snippets` and **important notes**.\n\n| Column A | Column B | Column C |\n|----------|----------|----------|\n| Data 1   | Data 2   | Data 3   |\n| Data 4   | Data 5   | Data 6   |\n\n---\n\n"

/-- The four fenced code samples (`code_samples` in the source), verbatim. -/
def code_samples : List String :=
  [ "```javascript\nfunction processData(items) \x7b\n    return items\n        .filter(item => item.active)\n        .map(item => (\x7b\n            id: item.id,\n            name: item.name.toUpperCase(),\n            value: item.value * 2\n        \x7d))\n        .sort((a, b) => a.value - b.value);\n\x7d\n```"
  , "```rust\nfn main() \x7b\n    let numbers: Vec<i32> = (1..=100).collect();\n    let sum: i32 = numbers.iter().sum();\n    println!(\"Sum: \x7b\x7d\", sum);\n\x7d\n```"
  , "```go\npackage main\n\nimport \"fmt\"\n\nfunc main() \x7b\n    ch := make(chan int, 10)\n    go func() \x7b\n        for i := 0; i < 10; i++ \x7b\n            ch <- i * i\n        \x7d\n        close(ch)\n    \x7d()\n    for v := range ch \x7b\n        fmt.Println(v)\n    \x7d\n\x7d\n```"
  , "```python\nclass DataProcessor:\n    def __init__(self, data):\n        self.data = data\n\n    def transform(self):\n        return [x ** 2 for x in self.data if x > 0]\n\n    def aggregate(self):\n        return sum(self.transform())\n```" ]

/-- The two data-table samples (`table_samples` in the source), verbatim. -/
def table_samples : List String :=
  [ "| ID | Name | Status | Priority |\n|---:|:-----|:------:|----------|\n| 1 | Alpha | Active | High |\n| 2 | Beta | Pending | Medium |\n| 3 | Gamma | Done | Low |\n| 4 | Delta | Active | High |"
  , "| Metric | Q1 | Q2 | Q3 | Q4 |\n|--------|----|----|----|----|\n| Revenue | 100 | 120 | 140 | 160 |\n| Costs | 80 | 85 | 90 | 95 |\n| Profit | 20 | 35 | 50 | 65 |" ]

/-- Python `len(s.split('\n'))`: one more than the number of newline characters. -/
def pyLineCount (s : String) : Nat := s.data.count '\n' + 1

/-- Python `'\n'.join(l)`. -/
def joinNl : List String → String
  | [] => ""
  | [x] => x
  | x :: y :: xs => x ++ "\n" ++ joinNl (y :: xs)

/-- Python `random.choice(l)`, with the raw draw `k` reduced into range by `%`. -/
def pyChoice (l : List String) (k : Nat) : String := l.getD (k % l.length) ""

/-- The paragraph filler line `f'Paragraph {p} with ... /{n}). ...'`. -/
def paraText (n p : Nat) : String :=
  "Paragraph " ++ toString p ++ " with **bold text**, *italic*, `inline code`, and [links](https://example.com/" ++ toString n ++ "). This is filler content to test rendering performance with realistic markdown documents."

/-- The list-item line `f'- Item {i} with some content and `code`'`. -/
def itemText (i : Nat) : String :=
  "- Item " ++ toString i ++ " with some content and `code`"

/-- The section heading `f'## Section {n}: Generated Content Block'`. -/
def sectionHeading (n : Nat) : String :=
  "## Section " ++ toString n ++ ": Generated Content Block"

/-- The closing heading `f'#### Subsection {n}.1'`. -/
def subsectionHeading (n : Nat) : String :=
  "#### Subsection " ++ toString n ++ ".1"

/-- The closing content line `f'Content for subsection {n}.1 with more **formatting** and details.'`. -/
def subsectionContent (n : Nat) : String :=
  "Content for subsection " ++ toString n ++ ".1 with more **formatting** and details."

/-- The lines appended by `for p in range(random.randint(2, 4))`: a paragraph and a
blank line per round, for `c` rounds. -/
def paraBlock (n : Nat) : Nat → List String
  | 0 => []
  | c + 1 => paraBlock n c ++ [paraText n (c + 1), ""]

/-- The lines appended by `for i in range(random.randint(3, 6))`: one item per round. -/
def itemBlock : Nat → List String
  | 0 => []
  | c + 1 => itemBlock c ++ [itemText (c + 1)]

/-- Lines appended when `section_num % 3 == 0`: a code sample chosen by draw `k`. -/
def codePart (n k : Nat) : List String :=
  if n % 3 = 0 then ["### Code Example", "", pyChoice code_samples k, ""] else []

/-- Lines appended when `section_num % 4 == 0`: a table sample chosen by draw `k`. -/
def tablePart (n k : Nat) : List String :=
  if n % 4 = 0 then ["### Data Table", "", pyChoice table_samples k, ""] else []

/-- Lines appended when `section_num % 5 == 0`. -/
def quotePart (n : Nat) : List String :=
  if n % 5 = 0 then
    ["> This is a blockquote with important information.", "> It spans multiple lines for testing purposes.", ""]
  else []

/-- Lines appended when `section_num % 6 == 0`. -/
def taskPart (n : Nat) : List String :=
  if n % 6 = 0 then
    ["### Tasks", "", "- [ ] Unchecked task item", "- [x] Checked task item", "- [ ] Another unchecked task", ""]
  else []

/-- Lines of the closing subsection and separator. -/
def closingPart (n : Nat) : List String :=
  [subsectionHeading n, "", subsectionContent n, "", "---", ""]

/-- Number of random draws one loop body consumes for section `n`:
`randint` for paragraphs, `randint` for items, plus one `choice` per
triggered code/table fragment. -/
def drawCount (n : Nat) : Nat :=
  2 + (if n % 3 = 0 then 1 else 0) + (if n % 4 = 0 then 1 else 0)

/-- Index of the draw feeding `random.choice(table_samples)` for section `n`
when it fires: after the two `randint` draws, and after the code-sample
`choice` draw when that one fired too. -/
def tableDrawIdx (n i : Nat) : Nat :=
  i + 2 + (if n % 3 = 0 then 1 else 0)

/-- One loop body: the list `section` built for section number `n`, with draws
taken from the stream `r` starting at index `i`.  Mirrors the `while` body of
the source: heading, blank, 2-4 paragraphs, list items, then the conditional
code / table / blockquote / task-list fragments, then the closing lines. -/
def buildSection (n : Nat) (r : Nat → Nat) (i : Nat) : List String :=
  sectionHeading n :: "" ::
    (paraBlock n (2 + r i % 3) ++
      ("### List Items" :: "" :: (itemBlock (3 + r (i + 1) % 4) ++ [""])) ++
      codePart n (r (i + 2)) ++
      tablePart n (r (tableDrawIdx n i)) ++
      quotePart n ++ taskPart n ++ closingPart n)

/-- `s` has only ASCII characters (so Python's `len` and the UTF-8 byte size agree). -/
def asciiStr (s : String) : Prop := ∀ c ∈ s.data, c.toNat < 128

/-- The `while line_count < target` loop, with explicit fuel (standard total
embedding of a `while` loop; fuel `target` is proved sufficient below).
Arguments mirror the mutable state `section_num`, `line_count` and the index
of the next unconsumed draw; the result is the list of generated sections
together with the final values of `section_num`, `line_count` and the draw
index. -/
def genLoop (target : Nat) (r : Nat → Nat) :
    Nat → Nat → Nat → Nat → List (List String) × Nat × Nat × Nat
  | 0, secNum, lineCount, i => ([], secNum, lineCount, i)
  | fuel + 1, secNum, lineCount, i =>
    if lineCount < target then
      let sec := buildSection secNum r i
      let rest := genLoop target r fuel (secNum + 1) (lineCount + sec.length) (i + drawCount secNum)
      (sec :: rest.1, rest.2)
    else ([], secNum, lineCount, i)

/-- `len(template.split('\n'))`, the initial value of `line_count`. -/
def templateLineCount : Nat := pyLineCount template

/-- The whole generation loop run from its initial state (`section_num = 3`,
`line_count` the template's line count, draw index 0), for threshold `target`. -/
def genRun (target : Nat) (r : Nat → Nat) : List (List String) × Nat × Nat × Nat :=
  genLoop target r target 3 templateLineCount 0

/-- The generated sections, in order, each as its Python list `section`. -/
def genSections (target : Nat) (r : Nat → Nat) : List (List String) :=
  (genRun target r).1

/-- The final value of `section_num`. -/
def sectionNumFinal (target : Nat) (r : Nat → Nat) : Nat :=
  (genRun target r).2.1

/-- The final value of `line_count`. -/
def lineCountFinal (target : Nat) (r : Nat → Nat) : Nat :=
  (genRun target r).2.2.1

/-- The total number of random draws the run consumes. -/
def drawsConsumed (target : Nat) (r : Nat → Nat) : Nat :=
  (genRun target r).2.2.2

/-- `full_doc = '\n'.join(sections)` before the footer is appended:
the template followed by each generated section's `'\n'.join(section)`. -/
def preFooterDoc (target : Nat) (r : Nat → Nat) : String :=
  joinNl (template :: (genSections target r).map joinNl)

/-- `actual_lines = len(full_doc.split('\n'))`, computed before the footer. -/
def actualLines (target : Nat) (r : Nat → Nat) : Nat :=
  pyLineCount (preFooterDoc target r)

/-- The statistics footer f-string, with `actual_lines` and `section_num - 1`
interpolated. -/
def footerText (al ns : Nat) : String :=
  "\n\n---\n\n## Document Statistics\n\n- **Total Lines**: " ++ toString al ++ "\n- **Generated Sections**: " ++ toString ns ++ "\n- **Purpose**: Performance testing for VoidReader\n\n---\n\n*End of test document*\n"

/-- The `Generated Sections` figure printed in the footer: `section_num - 1`. -/
def reportedSections (target : Nat) (r : Nat → Nat) : Nat :=
  sectionNumFinal target r - 1

/-- The complete written document: `full_doc` after the footer `+=`. -/
def fullDoc (target : Nat) (r : Nat → Nat) : String :=
  preFooterDoc target r ++ footerText (actualLines target r) (reportedSections target r)

/-- `final_lines = len(full_doc.split('\n'))` printed to the console. -/
def finalLines (target : Nat) (r : Nat → Nat) : Nat :=
  pyLineCount (fullDoc target r)

/-- `file_size = len(full_doc)` printed to the console: Python's character
count of the document string. -/
def fileSize (target : Nat) (r : Nat → Nat) : Nat :=
  (fullDoc target r).length

/-! ## Loop characterization lemmas -/

theorem genLoop_sectionNum (target : Nat) (r : Nat → Nat) :
    ∀ (fuel s l i : Nat),
      (genLoop target r fuel s l i).2.1 = s + (genLoop target r fuel s l i).1.length := by
  intro fuel
  induction fuel with
  | zero => intro s l i; simp [genLoop]
  | succ fuel ih =>
    intro s l i
    by_cases h : l < target
    · simp only [genLoop, if_pos h]
      simp [ih]
      omega
    · simp [genLoop, if_neg h]

theorem genLoop_lineCount (target : Nat) (r : Nat → Nat) :
    ∀ (fuel s l i : Nat),
      (genLoop target r fuel s l i).2.2.1
        = l + (((genLoop target r fuel s l i).1).map List.length).sum := by
  intro fuel
  induction fuel with
  | zero => intro s l i; simp [genLoop]
  | succ fuel ih =>
    intro s l i
    by_cases h : l < target
    · simp only [genLoop, if_pos h]
      simp [ih]
      omega
    · simp [genLoop, if_neg h]

theorem buildSection_length_pos (n : Nat) (r : Nat → Nat) (i : Nat) :
    0 < (buildSection n r i).length := by
  simp [buildSection]

theorem genLoop_exit (target : Nat) (r : Nat → Nat) :
    ∀ (fuel s l i : Nat), target ≤ fuel + l →
      target ≤ (genLoop target r fuel s l i).2.2.1 := by
  intro fuel
  induction fuel with
  | zero => intro s l i h; simp [genLoop]; omega
  | succ fuel ih =>
    intro s l i h
    by_cases hl : l < target
    · simp only [genLoop, if_pos hl]
      exact ih _ _ _ (by have := buildSection_length_pos s r i; omega)
    · simp [genLoop, if_neg hl]; omega

theorem genLoop_stable (target : Nat) (r : Nat → Nat) :
    ∀ (fuel₁ fuel₂ s l i : Nat), target ≤ fuel₁ + l → target ≤ fuel₂ + l →
      genLoop target r fuel₁ s l i = genLoop target r fuel₂ s l i := by
  intro fuel₁
  induction fuel₁ with
  | zero =>
    intro fuel₂ s l i h1 h2
    have hl : ¬ l < target := by omega
    cases fuel₂ with
    | zero => rfl
    | succ fuel₂ => simp [genLoop, if_neg hl]
  | succ fuel₁ ih =>
    intro fuel₂ s l i h1 h2
    by_cases hl : l < target
    · cases fuel₂ with
      | zero => omega
      | succ fuel₂ =>
        simp only [genLoop, if_pos hl]
        have hpos := buildSection_length_pos s r i
        rw [ih fuel₂ _ _ _ (by omega) (by omega)]
    · cases fuel₂ with
      | zero => simp [genLoop, if_neg hl]
      | succ fuel₂ => simp [genLoop, if_neg hl]

theorem genLoop_get (target : Nat) (r : Nat → Nat) :
    ∀ (fuel s l i k : Nat), k < (genLoop target r fuel s l i).1.length →
      ∃ j, (genLoop target r fuel s l i).1.get? k = some (buildSection (s + k) r j) := by
  intro fuel
  induction fuel with
  | zero => intro s l i k h; simp [genLoop] at h
  | succ fuel ih =>
    intro s l i k h
    by_cases hl : l < target
    · simp only [genLoop, if_pos hl] at h ⊢
      cases k with
      | zero => exact ⟨i, rfl⟩
      | succ k =>
        simp only [List.get?_cons_succ]
        have hk : k < (genLoop target r fuel (s + 1) (l + (buildSection s r i).length)
            (i + drawCount s)).1.length := by
          simp at h; omega
        obtain ⟨j, hj⟩ := ih (s + 1) (l + (buildSection s r i).length) (i + drawCount s) k hk
        refine ⟨j, ?_⟩
        rw [hj]
        congr 2
        omega
    · simp [genLoop, if_neg hl] at h

theorem genLoop_sections_shape (target : Nat) (r : Nat → Nat) :
    ∀ (fuel s l i : Nat), ∀ sec ∈ (genLoop target r fuel s l i).1,
      ∃ n j, sec = buildSection n r j := by
  intro fuel
  induction fuel with
  | zero => intro s l i sec h; simp [genLoop] at h
  | succ fuel ih =>
    intro s l i sec h
    by_cases hl : l < target
    · simp only [genLoop, if_pos hl, List.mem_cons] at h
      rcases h with h | h
      · exact ⟨s, i, h⟩
      · exact ih _ _ _ sec h
    · simp [genLoop, if_neg hl] at h

theorem genLoop_idx_le (target : Nat) (r : Nat → Nat) :
    ∀ (fuel s l i : Nat), i ≤ (genLoop target r fuel s l i).2.2.2 := by
  intro fuel
  induction fuel with
  | zero => intro s l i; simp [genLoop]
  | succ fuel ih =>
    intro s l i
    by_cases hl : l < target
    · simp only [genLoop, if_pos hl]
      have := ih (s + 1) (l + (buildSection s r i).length) (i + drawCount s)
      omega
    · simp [genLoop, if_neg hl]

theorem buildSection_congr (n : Nat) (r₁ r₂ : Nat → Nat) (i : Nat)
    (h : ∀ j, i ≤ j → j < i + drawCount n → r₁ j = r₂ j) :
    buildSection n r₁ i = buildSection n r₂ i := by
  have hdc : 2 ≤ drawCount n := by unfold drawCount; omega
  have h0 : r₁ i = r₂ i := h i (by omega) (by omega)
  have h1 : r₁ (i + 1) = r₂ (i + 1) := h (i + 1) (by omega) (by omega)
  unfold buildSection codePart tablePart
  by_cases h3 : n % 3 = 0 <;> by_cases h4 : n % 4 = 0
  · have h2 : r₁ (i + 2) = r₂ (i + 2) := by
      refine h _ (by omega) ?_
      unfold drawCount
      rw [if_pos h3]
      omega
    have h5 : r₁ (tableDrawIdx n i) = r₂ (tableDrawIdx n i) := by
      refine h _ ?_ ?_
      · unfold tableDrawIdx; omega
      · unfold tableDrawIdx drawCount
        rw [if_pos h3, if_pos h4]
        omega
    simp [h0, h1, h2, h3, h4, h5]
  · have h2 : r₁ (i + 2) = r₂ (i + 2) := by
      refine h _ (by omega) ?_
      unfold drawCount
      rw [if_pos h3]
      omega
    simp [h0, h1, h2, h3, h4]
  · have h5 : r₁ (tableDrawIdx n i) = r₂ (tableDrawIdx n i) := by
      refine h _ ?_ ?_
      · unfold tableDrawIdx; omega
      · unfold tableDrawIdx drawCount
        rw [if_neg h3, if_pos h4]
        omega
    simp [h0, h1, h3, h4, h5]
  · simp [h0, h1, h3, h4]

theorem genLoop_congr (target : Nat) (r₁ r₂ : Nat → Nat) :
    ∀ (fuel s l i : Nat),
      (∀ j, i ≤ j → j < (genLoop target r₁ fuel s l i).2.2.2 → r₁ j = r₂ j) →
      genLoop target r₁ fuel s l i = genLoop target r₂ fuel s l i := by
  intro fuel
  induction fuel with
  | zero => intro s l i h; simp [genLoop]
  | succ fuel ih =>
    intro s l i h
    by_cases hl : l < target
    · simp only [genLoop, if_pos hl] at h ⊢
      have hidx := genLoop_idx_le target r₁ fuel (s + 1)
        (l + (buildSection s r₁ i).length) (i + drawCount s)
      have hsec : buildSection s r₁ i = buildSection s r₂ i := by
        apply buildSection_congr
        intro j hj1 hj2
        exact h j hj1 (by omega)
      rw [← hsec]
      have hrest : genLoop target r₁ fuel (s + 1) (l + (buildSection s r₁ i).length)
            (i + drawCount s)
          = genLoop target r₂ fuel (s + 1) (l + (buildSection s r₁ i).length)
            (i + drawCount s) := by
        apply ih
        intro j hj1 hj2
        exact h j (by omega) hj2
      rw [hrest]
    · simp [genLoop, if_neg hl]

/-! ## Line-counting lemmas for `'\n'.join` -/

theorem pyLineCount_append (s t : String) :
    pyLineCount (s ++ t) = pyLineCount s + pyLineCount t - 1 := by
  simp [pyLineCount, String.data_append, List.count_append]
  omega

theorem joinNl_cons_cons (x y : String) (xs : List String) :
    joinNl (x :: y :: xs) = x ++ "\n" ++ joinNl (y :: xs) := rfl

theorem pyLineCount_joinNl_cons (x : String) :
    ∀ (l : List String),
      pyLineCount (joinNl (x :: l)) = pyLineCount x + (l.map pyLineCount).sum := by
  intro l
  induction l generalizing x with
  | nil => simp [joinNl]
  | cons y ys ih =>
    rw [joinNl_cons_cons]
    simp only [List.map_cons, List.sum_cons]
    have := ih y
    simp [pyLineCount, String.data_append, List.count_append] at this ⊢
    omega

theorem length_le_pyLineCount_joinNl :
    ∀ (l : List String), l.length ≤ pyLineCount (joinNl l) := by
  intro l
  cases l with
  | nil => simp [joinNl, pyLineCount]
  | cons x xs =>
    rw [pyLineCount_joinNl_cons]
    have h1 : 1 ≤ pyLineCount x := by simp [pyLineCount]
    have h2 : xs.length ≤ (xs.map pyLineCount).sum := by
      induction xs with
      | nil => simp
      | cons y ys ih =>
        simp only [List.map_cons, List.sum_cons, List.length_cons]
        have : 1 ≤ pyLineCount y := by simp [pyLineCount]
        omega
    simp only [List.length_cons]
    omega

/-! ## Decimal rendering of `Nat`: all digits are ASCII and newline-free -/

theorem digitChar_ascii_ne (m : Nat) (hm : m < 16) :
    (Nat.digitChar m).toNat < 128 ∧ Nat.digitChar m ≠ '\n' := by
  interval_cases m <;> decide

theorem toDigitsCore_ascii_ne :
    ∀ (fuel n : Nat) (ds : List Char),
      (∀ c ∈ ds, c.toNat < 128 ∧ c ≠ '\n') →
      ∀ c ∈ Nat.toDigitsCore 10 fuel n ds, c.toNat < 128 ∧ c ≠ '\n' := by
  intro fuel
  induction fuel with
  | zero => intro n ds h c hc; exact h c hc
  | succ fuel ih =>
    intro n ds h c hc
    simp only [Nat.toDigitsCore] at hc
    by_cases hz : n / 10 = 0
    · rw [if_pos hz] at hc
      rcases List.mem_cons.1 hc with h1 | h1
      · rw [h1]
        exact digitChar_ascii_ne _ (by have h10 : n % 10 < 10 := Nat.mod_lt n (by omega); omega)
      · exact h c h1
    · rw [if_neg hz] at hc
      refine ih _ _ ?_ c hc
      intro d hd
      rcases List.mem_cons.1 hd with h1 | h1
      · rw [h1]
        exact digitChar_ascii_ne _ (by have h10 : n % 10 < 10 := Nat.mod_lt n (by omega); omega)
      · exact h d h1

theorem toString_nat_ascii_ne (n : Nat) :
    ∀ c ∈ (toString n).data, c.toNat < 128 ∧ c ≠ '\n' := by
  intro c hc
  have hdata : (toString n).data = Nat.toDigits 10 n := rfl
  rw [hdata] at hc
  exact toDigitsCore_ascii_ne _ _ [] (by simp) c hc

theorem countNl_toString_nat (n : Nat) : (toString n).data.count '\n' = 0 := by
  rw [List.count_eq_zero]
  intro h
  exact (toString_nat_ascii_ne n _ h).2 rfl

theorem pyLineCount_footerText (al ns : Nat) :
    pyLineCount (footerText al ns) = 14 := by
  unfold footerText pyLineCount
  rw [String.data_append, String.data_append, String.data_append, String.data_append,
    List.count_append, List.count_append, List.count_append, List.count_append,
    countNl_toString_nat, countNl_toString_nat]
  decide

/-! ## ASCII and UTF-8 byte size -/

theorem utf8Size_of_ascii (c : Char) (h : c.toNat < 128) : Char.utf8Size c = 1 := by
  unfold Char.utf8Size
  rw [if_pos]
  rw [UInt32.le_def, BitVec.le_def]
  exact Nat.le_of_lt_succ h

theorem utf8Go_of_ascii :
    ∀ (l : List Char), (∀ c ∈ l, c.toNat < 128) → String.utf8ByteSize.go l = l.length := by
  intro l
  induction l with
  | nil => intro _; rfl
  | cons c cs ih =>
    intro h
    have hstep : String.utf8ByteSize.go (c :: cs)
        = String.utf8ByteSize.go cs + Char.utf8Size c := rfl
    rw [hstep, ih (fun d hd => h d (List.mem_cons_of_mem c hd)),
      utf8Size_of_ascii c (h c (List.mem_cons_self c cs))]
    simp

theorem utf8ByteSize_of_ascii (s : String) (h : asciiStr s) : s.utf8ByteSize = s.length := by
  have h1 : s.utf8ByteSize = String.utf8ByteSize.go s.data := rfl
  have h2 : s.length = s.data.length := rfl
  rw [h1, h2, utf8Go_of_ascii s.data h]

theorem asciiStr_append (s t : String) (hs : asciiStr s) (ht : asciiStr t) :
    asciiStr (s ++ t) := by
  intro c hc
  rw [String.data_append] at hc
  rcases List.mem_append.1 hc with h | h
  · exact hs c h
  · exact ht c h

theorem asciiStr_toString_nat (n : Nat) : asciiStr (toString n) :=
  fun c hc => (toString_nat_ascii_ne n c hc).1

theorem asciiStr_joinNl :
    ∀ (l : List String), (∀ s ∈ l, asciiStr s) → asciiStr (joinNl l) := by
  intro l
  induction l with
  | nil => intro _ c hc; simp [joinNl] at hc
  | cons x xs ih =>
    intro h
    cases xs with
    | nil => exact h x (by simp)
    | cons y ys =>
      rw [joinNl_cons_cons]
      refine asciiStr_append _ _ (asciiStr_append _ _ (h x (by simp)) ?_) ?_
      · intro c hc
        have h1 : ("\n" : String).data = ['\n'] := rfl
        rw [h1, List.mem_singleton] at hc
        subst hc
        decide
      · exact ih (fun s hs => h s (List.mem_cons_of_mem x hs))

/-! ## Membership and classification of section lines -/


theorem pyChoice_mem (l : List String) (k : Nat) (h : l ≠ []) : pyChoice l k ∈ l := by
  unfold pyChoice
  have hlen : 0 < l.length := List.length_pos.2 h
  have hk : k % l.length < l.length := Nat.mod_lt _ hlen
  rw [List.getD_eq_getElem l "" hk]
  exact List.getElem_mem hk

theorem mem_paraBlock (n : Nat) :
    ∀ (c : Nat) (s : String), s ∈ paraBlock n c → s = "" ∨ ∃ p, s = paraText n p := by
  intro c
  induction c with
  | zero => intro s h; simp [paraBlock] at h
  | succ c ih =>
    intro s h
    simp only [paraBlock] at h
    rcases List.mem_append.1 h with h1 | h1
    · exact ih s h1
    · rcases List.mem_cons.1 h1 with h2 | h2
      · exact Or.inr ⟨c + 1, h2⟩
      · simp at h2
        exact Or.inl h2

theorem mem_itemBlock :
    ∀ (c : Nat) (s : String), s ∈ itemBlock c → ∃ j, s = itemText j := by
  intro c
  induction c with
  | zero => intro s h; simp [itemBlock] at h
  | succ c ih =>
    intro s h
    simp only [itemBlock] at h
    rcases List.mem_append.1 h with h1 | h1
    · exact ih s h1
    · simp at h1
      exact ⟨c + 1, h1⟩

theorem paraText_one_mem_paraBlock (n : Nat) :
    ∀ (c : Nat), 1 ≤ c → paraText n 1 ∈ paraBlock n c := by
  intro c
  induction c with
  | zero => omega
  | succ c ih =>
    intro _
    simp only [paraBlock]
    by_cases hc : 1 ≤ c
    · exact List.mem_append_left _ (ih hc)
    · have : c = 0 := by omega
      subst this
      simp [paraBlock]

theorem take3_append (s t : String) (h : 3 ≤ s.data.length) :
    (s ++ t).data.take 3 = s.data.take 3 := by
  rw [String.data_append, List.take_append_of_le_length h]

theorem take3_sectionHeading (n : Nat) :
    (sectionHeading n).data.take 3 = ['#', '#', ' '] := by
  unfold sectionHeading
  rw [String.append_assoc, take3_append _ _ (by decide)]
  decide

theorem take3_paraText (n p : Nat) :
    (paraText n p).data.take 3 = ['P', 'a', 'r'] := by
  unfold paraText
  rw [String.append_assoc, String.append_assoc, String.append_assoc,
    take3_append _ _ (by decide)]
  decide

theorem take3_itemText (i : Nat) :
    (itemText i).data.take 3 = ['-', ' ', 'I'] := by
  unfold itemText
  rw [String.append_assoc, take3_append _ _ (by decide)]
  decide

theorem take3_subsectionHeading (n : Nat) :
    (subsectionHeading n).data.take 3 = ['#', '#', '#'] := by
  unfold subsectionHeading
  rw [String.append_assoc, take3_append _ _ (by decide)]
  decide

theorem take3_subsectionContent (n : Nat) :
    (subsectionContent n).data.take 3 = ['C', 'o', 'n'] := by
  unfold subsectionContent
  rw [String.append_assoc, take3_append _ _ (by decide)]
  decide



theorem mem_buildSection_cases (n : Nat) (r : Nat → Nat) (i : Nat) (s : String)
    (hs : s ∈ buildSection n r i) :
    s = ""
    ∨ s.data.take 3 ∈ ([['#', '#', ' '], ['P', 'a', 'r'], ['#', '#', '#'],
        ['-', ' ', 'I'], ['C', 'o', 'n'], ['-', '-', '-']] : List (List Char))
    ∨ (n % 3 = 0 ∧ s ∈ code_samples)
    ∨ (n % 4 = 0 ∧ s ∈ table_samples)
    ∨ (n % 5 = 0 ∧ s.data.take 3 ∈ ([['>', ' ', 'T'], ['>', ' ', 'I']] : List (List Char)))
    ∨ (n % 6 = 0 ∧ s.data.take 3 = ['-', ' ', '[']) := by
  unfold buildSection at hs
  rcases List.mem_cons.1 hs with h | hs
  · exact Or.inr (Or.inl (by rw [h, take3_sectionHeading]; decide))
  rcases List.mem_cons.1 hs with h | hs
  · exact Or.inl h
  rcases List.mem_append.1 hs with hs | hs
  rotate_left
  · -- closingPart
    unfold closingPart at hs
    simp only [List.mem_cons, List.not_mem_nil, or_false] at hs
    rcases hs with h | h | h | h | h | h
    · exact Or.inr (Or.inl (by rw [h, take3_subsectionHeading]; decide))
    · exact Or.inl h
    · exact Or.inr (Or.inl (by rw [h, take3_subsectionContent]; decide))
    · exact Or.inl h
    · exact Or.inr (Or.inl (by rw [h]; decide))
    · exact Or.inl h
  rcases List.mem_append.1 hs with hs | hs
  rotate_left
  · -- taskPart
    unfold taskPart at hs
    by_cases h6 : n % 6 = 0
    · rw [if_pos h6] at hs
      simp only [List.mem_cons, List.not_mem_nil, or_false] at hs
      rcases hs with h | h | h | h | h | h
      · exact Or.inr (Or.inl (by rw [h]; decide))
      · exact Or.inl h
      · exact Or.inr (Or.inr (Or.inr (Or.inr (Or.inr ⟨h6, by rw [h]; decide⟩))))
      · exact Or.inr (Or.inr (Or.inr (Or.inr (Or.inr ⟨h6, by rw [h]; decide⟩))))
      · exact Or.inr (Or.inr (Or.inr (Or.inr (Or.inr ⟨h6, by rw [h]; decide⟩))))
      · exact Or.inl h
    · rw [if_neg h6] at hs
      simp at hs
  rcases List.mem_append.1 hs with hs | hs
  rotate_left
  · -- quotePart
    unfold quotePart at hs
    by_cases h5 : n % 5 = 0
    · rw [if_pos h5] at hs
      simp only [List.mem_cons, List.not_mem_nil, or_false] at hs
      rcases hs with h | h | h
      · exact Or.inr (Or.inr (Or.inr (Or.inr (Or.inl ⟨h5, by rw [h]; decide⟩))))
      · exact Or.inr (Or.inr (Or.inr (Or.inr (Or.inl ⟨h5, by rw [h]; decide⟩))))
      · exact Or.inl h
    · rw [if_neg h5] at hs
      simp at hs
  rcases List.mem_append.1 hs with hs | hs
  rotate_left
  · -- tablePart
    unfold tablePart at hs
    by_cases h4 : n % 4 = 0
    · rw [if_pos h4] at hs
      simp only [List.mem_cons, List.not_mem_nil, or_false] at hs
      rcases hs with h | h | h | h
      · exact Or.inr (Or.inl (by rw [h]; decide))
      · exact Or.inl h
      · exact Or.inr (Or.inr (Or.inr (Or.inl ⟨h4, by rw [h]; exact pyChoice_mem _ _ (by decide)⟩)))
      · exact Or.inl h
    · rw [if_neg h4] at hs
      simp at hs
  rcases List.mem_append.1 hs with hs | hs
  rotate_left
  · -- codePart
    unfold codePart at hs
    by_cases h3 : n % 3 = 0
    · rw [if_pos h3] at hs
      simp only [List.mem_cons, List.not_mem_nil, or_false] at hs
      rcases hs with h | h | h | h
      · exact Or.inr (Or.inl (by rw [h]; decide))
      · exact Or.inl h
      · exact Or.inr (Or.inr (Or.inl ⟨h3, by rw [h]; exact pyChoice_mem _ _ (by decide)⟩))
      · exact Or.inl h
    · rw [if_neg h3] at hs
      simp at hs
  rcases List.mem_append.1 hs with hs | hs
  · -- paraBlock
    rcases mem_paraBlock n _ s hs with h | ⟨p, h⟩
    · exact Or.inl h
    · exact Or.inr (Or.inl (by rw [h, take3_paraText]; decide))
  · -- list items chunk
    rcases List.mem_cons.1 hs with h | hs
    · exact Or.inr (Or.inl (by rw [h]; decide))
    rcases List.mem_cons.1 hs with h | hs
    · exact Or.inl h
    rcases List.mem_append.1 hs with hs | hs
    · rcases mem_itemBlock _ s hs with ⟨j, h⟩
      exact Or.inr (Or.inl (by rw [h, take3_itemText]; decide))
    · simp at hs
      exact Or.inl hs



theorem take3_code_samples : ∀ c ∈ code_samples, c.data.take 3 = ['`', '`', '`'] := by decide

theorem take3_table_samples :
    ∀ t ∈ table_samples, t.data.take 3 = ['|', ' ', 'I'] ∨ t.data.take 3 = ['|', ' ', 'M'] := by
  decide

theorem code_not_table : ∀ c ∈ code_samples, c ∉ table_samples := by decide

theorem codeFrag_mem_iff (n : Nat) (r : Nat → Nat) (i : Nat) :
    (∃ c ∈ code_samples, c ∈ buildSection n r i) ↔ n % 3 = 0 := by
  constructor
  · rintro ⟨c, hc, hmem⟩
    have ht := take3_code_samples c hc
    rcases mem_buildSection_cases n r i c hmem with h | h | ⟨h3, _⟩ | ⟨_, h⟩ | ⟨_, h⟩ | ⟨_, h⟩
    · rw [h] at ht; exact absurd ht (by decide)
    · rw [ht] at h; exact absurd h (by decide)
    · exact h3
    · exact absurd h (code_not_table c hc)
    · rw [ht] at h; exact absurd h (by decide)
    · rw [ht] at h; exact absurd h (by decide)
  · intro h3
    refine ⟨pyChoice code_samples (r (i + 2)), pyChoice_mem _ _ (by decide), ?_⟩
    simp [buildSection, codePart, h3]



theorem tableFrag_mem_iff (n : Nat) (r : Nat → Nat) (i : Nat) :
    (∃ t ∈ table_samples, t ∈ buildSection n r i) ↔ n % 4 = 0 := by
  constructor
  · rintro ⟨t, ht0, hmem⟩
    have ht := take3_table_samples t ht0
    rcases mem_buildSection_cases n r i t hmem with h | h | ⟨_, h⟩ | ⟨h4, _⟩ | ⟨_, h⟩ | ⟨_, h⟩
    · rw [h] at ht; exact absurd ht (by decide)
    · rcases ht with ht | ht <;> rw [ht] at h <;> exact absurd h (by decide)
    · exact absurd ht0 (code_not_table t h)
    · exact h4
    · rcases ht with ht | ht <;> rw [ht] at h <;> exact absurd h (by decide)
    · rcases ht with ht | ht <;> rw [ht] at h <;> exact absurd h (by decide)
  · intro h4
    refine ⟨pyChoice table_samples (r (tableDrawIdx n i)), pyChoice_mem _ _ (by decide), ?_⟩
    simp [buildSection, tablePart, h4]

theorem quoteFrag_mem_iff (n : Nat) (r : Nat → Nat) (i : Nat) :
    ("> This is a blockquote with important information." ∈ buildSection n r i) ↔ n % 5 = 0 := by
  constructor
  · intro hmem
    rcases mem_buildSection_cases n r i _ hmem with h | h | ⟨_, h⟩ | ⟨_, h⟩ | ⟨h5, _⟩ | ⟨_, h⟩
    · exact absurd h (by decide)
    · exact absurd h (by decide)
    · have := take3_code_samples _ h; exact absurd this (by decide)
    · have := take3_table_samples _ h
      rcases this with h1 | h1 <;> exact absurd h1 (by decide)
    · exact h5
    · exact absurd h (by decide)
  · intro h5
    simp [buildSection, quotePart, h5]

theorem taskFrag_mem_iff (n : Nat) (r : Nat → Nat) (i : Nat) :
    ("- [ ] Unchecked task item" ∈ buildSection n r i) ↔ n % 6 = 0 := by
  constructor
  · intro hmem
    rcases mem_buildSection_cases n r i _ hmem with h | h | ⟨_, h⟩ | ⟨_, h⟩ | ⟨_, h⟩ | ⟨h6, _⟩
    · exact absurd h (by decide)
    · exact absurd h (by decide)
    · have := take3_code_samples _ h; exact absurd this (by decide)
    · have := take3_table_samples _ h
      rcases this with h1 | h1 <;> exact absurd h1 (by decide)
    · exact absurd h (by decide)
    · exact h6
  · intro h6
    simp [buildSection, taskPart, h6]



theorem order_code_table (n : Nat) (r : Nat → Nat) (i : Nat) (h3 : n % 3 = 0) (h4 : n % 4 = 0) :
    ∃ A B C : List String,
      buildSection n r i
        = A ++ pyChoice code_samples (r (i + 2))
            :: B ++ pyChoice table_samples (r (tableDrawIdx n i)) :: C := by
  refine ⟨sectionHeading n :: "" :: (paraBlock n (2 + r i % 3) ++
      ("### List Items" :: "" :: (itemBlock (3 + r (i + 1) % 4) ++ [""])) ++
      ["### Code Example", ""]),
    ["", "### Data Table", ""],
    [""] ++ quotePart n ++ taskPart n ++ closingPart n, ?_⟩
  simp [buildSection, codePart, tablePart, h3, h4]



theorem order_code_quote (n : Nat) (r : Nat → Nat) (i : Nat) (h3 : n % 3 = 0) (h5 : n % 5 = 0) :
    ∃ A B C : List String,
      buildSection n r i
        = A ++ pyChoice code_samples (r (i + 2))
            :: B ++ "> This is a blockquote with important information." :: C := by
  refine ⟨sectionHeading n :: "" :: (paraBlock n (2 + r i % 3) ++
      ("### List Items" :: "" :: (itemBlock (3 + r (i + 1) % 4) ++ [""])) ++
      ["### Code Example", ""]),
    "" :: tablePart n (r (tableDrawIdx n i)),
    ["> It spans multiple lines for testing purposes.", ""] ++ taskPart n ++ closingPart n, ?_⟩
  simp [buildSection, codePart, quotePart, h3, h5]

theorem order_code_task (n : Nat) (r : Nat → Nat) (i : Nat) (h3 : n % 3 = 0) (h6 : n % 6 = 0) :
    ∃ A B C : List String,
      buildSection n r i
        = A ++ pyChoice code_samples (r (i + 2))
            :: B ++ "- [ ] Unchecked task item" :: C := by
  refine ⟨sectionHeading n :: "" :: (paraBlock n (2 + r i % 3) ++
      ("### List Items" :: "" :: (itemBlock (3 + r (i + 1) % 4) ++ [""])) ++
      ["### Code Example", ""]),
    "" :: (tablePart n (r (tableDrawIdx n i)) ++ quotePart n ++ ["### Tasks", ""]),
    ["- [x] Checked task item", "- [ ] Another unchecked task", ""] ++ closingPart n, ?_⟩
  simp [buildSection, codePart, taskPart, h3, h6]

theorem order_table_quote (n : Nat) (r : Nat → Nat) (i : Nat) (h4 : n % 4 = 0) (h5 : n % 5 = 0) :
    ∃ A B C : List String,
      buildSection n r i
        = A ++ pyChoice table_samples (r (tableDrawIdx n i))
            :: B ++ "> This is a blockquote with important information." :: C := by
  refine ⟨sectionHeading n :: "" :: (paraBlock n (2 + r i % 3) ++
      ("### List Items" :: "" :: (itemBlock (3 + r (i + 1) % 4) ++ [""])) ++
      codePart n (r (i + 2)) ++ ["### Data Table", ""]),
    [""],
    ["> It spans multiple lines for testing purposes.", ""] ++ taskPart n ++ closingPart n, ?_⟩
  simp [buildSection, tablePart, quotePart, h4, h5]

theorem order_table_task (n : Nat) (r : Nat → Nat) (i : Nat) (h4 : n % 4 = 0) (h6 : n % 6 = 0) :
    ∃ A B C : List String,
      buildSection n r i
        = A ++ pyChoice table_samples (r (tableDrawIdx n i))
            :: B ++ "- [ ] Unchecked task item" :: C := by
  refine ⟨sectionHeading n :: "" :: (paraBlock n (2 + r i % 3) ++
      ("### List Items" :: "" :: (itemBlock (3 + r (i + 1) % 4) ++ [""])) ++
      codePart n (r (i + 2)) ++ ["### Data Table", ""]),
    "" :: (quotePart n ++ ["### Tasks", ""]),
    ["- [x] Checked task item", "- [ ] Another unchecked task", ""] ++ closingPart n, ?_⟩
  simp [buildSection, tablePart, taskPart, h4, h6]

theorem order_quote_task (n : Nat) (r : Nat → Nat) (i : Nat) (h5 : n % 5 = 0) (h6 : n % 6 = 0) :
    ∃ A B C : List String,
      buildSection n r i
        = A ++ "> This is a blockquote with important information."
            :: B ++ "- [ ] Unchecked task item" :: C := by
  refine ⟨sectionHeading n :: "" :: (paraBlock n (2 + r i % 3) ++
      ("### List Items" :: "" :: (itemBlock (3 + r (i + 1) % 4) ++ [""])) ++
      codePart n (r (i + 2)) ++ tablePart n (r (tableDrawIdx n i))),
    ["> It spans multiple lines for testing purposes.", "", "### Tasks", ""],
    ["- [x] Checked task item", "- [ ] Another unchecked task", ""] ++ closingPart n, ?_⟩
  simp [buildSection, quotePart, taskPart, h5, h6]


/-! ## Every character of the document is ASCII -/


theorem asciiStr_of_all (s : String)
    (h : s.data.all (fun c => decide (c.toNat < 128)) = true) : asciiStr s := by
  intro c hc
  exact of_decide_eq_true (List.all_eq_true.1 h c hc)

theorem asciiStr_template : asciiStr template := asciiStr_of_all _ (by decide)

theorem asciiStr_code_samples : ∀ c ∈ code_samples, asciiStr c := by
  intro c hc
  fin_cases hc <;> exact asciiStr_of_all _ (by decide)

theorem asciiStr_table_samples : ∀ t ∈ table_samples, asciiStr t := by
  intro t ht
  fin_cases ht <;> exact asciiStr_of_all _ (by decide)

theorem asciiStr_paraText (n p : Nat) : asciiStr (paraText n p) := by
  unfold paraText
  exact asciiStr_append _ _
    (asciiStr_append _ _
      (asciiStr_append _ _
        (asciiStr_append _ _ (asciiStr_of_all _ (by decide)) (asciiStr_toString_nat p))
        (asciiStr_of_all _ (by decide)))
      (asciiStr_toString_nat n))
    (asciiStr_of_all _ (by decide))

theorem asciiStr_itemText (i : Nat) : asciiStr (itemText i) := by
  unfold itemText
  exact asciiStr_append _ _
    (asciiStr_append _ _ (asciiStr_of_all _ (by decide)) (asciiStr_toString_nat i))
    (asciiStr_of_all _ (by decide))

theorem asciiStr_sectionHeading (n : Nat) : asciiStr (sectionHeading n) := by
  unfold sectionHeading
  exact asciiStr_append _ _
    (asciiStr_append _ _ (asciiStr_of_all _ (by decide)) (asciiStr_toString_nat n))
    (asciiStr_of_all _ (by decide))

theorem asciiStr_subsectionHeading (n : Nat) : asciiStr (subsectionHeading n) := by
  unfold subsectionHeading
  exact asciiStr_append _ _
    (asciiStr_append _ _ (asciiStr_of_all _ (by decide)) (asciiStr_toString_nat n))
    (asciiStr_of_all _ (by decide))

theorem asciiStr_subsectionContent (n : Nat) : asciiStr (subsectionContent n) := by
  unfold subsectionContent
  exact asciiStr_append _ _
    (asciiStr_append _ _ (asciiStr_of_all _ (by decide)) (asciiStr_toString_nat n))
    (asciiStr_of_all _ (by decide))

theorem asciiStr_mem_buildSection (n : Nat) (r : Nat → Nat) (i : Nat) :
    ∀ s ∈ buildSection n r i, asciiStr s := by
  intro s hs
  unfold buildSection at hs
  rcases List.mem_cons.1 hs with h | hs
  · rw [h]; exact asciiStr_sectionHeading n
  rcases List.mem_cons.1 hs with h | hs
  · rw [h]; unfold asciiStr; decide
  rcases List.mem_append.1 hs with hs | hs
  rotate_left
  · unfold closingPart at hs
    simp only [List.mem_cons, List.not_mem_nil, or_false] at hs
    rcases hs with h | h | h | h | h | h <;> rw [h]
    · exact asciiStr_subsectionHeading n
    · unfold asciiStr; decide
    · exact asciiStr_subsectionContent n
    · unfold asciiStr; decide
    · unfold asciiStr; decide
    · unfold asciiStr; decide
  rcases List.mem_append.1 hs with hs | hs
  rotate_left
  · unfold taskPart at hs
    by_cases h6 : n % 6 = 0
    · rw [if_pos h6] at hs
      simp only [List.mem_cons, List.not_mem_nil, or_false] at hs
      rcases hs with h | h | h | h | h | h <;> rw [h] <;> unfold asciiStr <;> decide
    · rw [if_neg h6] at hs; simp at hs
  rcases List.mem_append.1 hs with hs | hs
  rotate_left
  · unfold quotePart at hs
    by_cases h5 : n % 5 = 0
    · rw [if_pos h5] at hs
      simp only [List.mem_cons, List.not_mem_nil, or_false] at hs
      rcases hs with h | h | h <;> rw [h] <;> unfold asciiStr <;> decide
    · rw [if_neg h5] at hs; simp at hs
  rcases List.mem_append.1 hs with hs | hs
  rotate_left
  · unfold tablePart at hs
    by_cases h4 : n % 4 = 0
    · rw [if_pos h4] at hs
      simp only [List.mem_cons, List.not_mem_nil, or_false] at hs
      rcases hs with h | h | h | h
      · rw [h]; unfold asciiStr; decide
      · rw [h]; unfold asciiStr; decide
      · rw [h]; exact asciiStr_table_samples _ (pyChoice_mem _ _ (by decide))
      · rw [h]; unfold asciiStr; decide
    · rw [if_neg h4] at hs; simp at hs
  rcases List.mem_append.1 hs with hs | hs
  rotate_left
  · unfold codePart at hs
    by_cases h3 : n % 3 = 0
    · rw [if_pos h3] at hs
      simp only [List.mem_cons, List.not_mem_nil, or_false] at hs
      rcases hs with h | h | h | h
      · rw [h]; unfold asciiStr; decide
      · rw [h]; unfold asciiStr; decide
      · rw [h]; exact asciiStr_code_samples _ (pyChoice_mem _ _ (by decide))
      · rw [h]; unfold asciiStr; decide
    · rw [if_neg h3] at hs; simp at hs
  rcases List.mem_append.1 hs with hs | hs
  · rcases mem_paraBlock n _ s hs with h | ⟨p, h⟩
    · rw [h]; unfold asciiStr; decide
    · rw [h]; exact asciiStr_paraText n p
  · rcases List.mem_cons.1 hs with h | hs
    · rw [h]; unfold asciiStr; decide
    rcases List.mem_cons.1 hs with h | hs
    · rw [h]; unfold asciiStr; decide
    rcases List.mem_append.1 hs with hs | hs
    · rcases mem_itemBlock _ s hs with ⟨j, h⟩
      rw [h]; exact asciiStr_itemText j
    · simp at hs
      rw [hs]; unfold asciiStr; decide

theorem subsectionHeading_mem_buildSection (n : Nat) (r : Nat → Nat) (i : Nat) :
    subsectionHeading n ∈ buildSection n r i := by
  simp [buildSection, closingPart]

theorem paraText_one_mem_buildSection (n : Nat) (r : Nat → Nat) (i : Nat) :
    paraText n 1 ∈ buildSection n r i := by
  unfold buildSection
  refine List.mem_cons_of_mem _ (List.mem_cons_of_mem _ ?_)
  refine List.mem_append.2 (Or.inl ?_)
  refine List.mem_append.2 (Or.inl ?_)
  refine List.mem_append.2 (Or.inl ?_)
  refine List.mem_append.2 (Or.inl ?_)
  refine List.mem_append.2 (Or.inl ?_)
  refine List.mem_append.2 (Or.inl ?_)
  exact paraText_one_mem_paraBlock n _ (by omega)




theorem asciiStr_footerText (al ns : Nat) : asciiStr (footerText al ns) := by
  unfold footerText
  exact asciiStr_append _ _
    (asciiStr_append _ _
      (asciiStr_append _ _
        (asciiStr_append _ _ (asciiStr_of_all _ (by decide)) (asciiStr_toString_nat al))
        (asciiStr_of_all _ (by decide)))
      (asciiStr_toString_nat ns))
    (asciiStr_of_all _ (by decide))

theorem asciiStr_preFooterDoc (target : Nat) (r : Nat → Nat) :
    asciiStr (preFooterDoc target r) := by
  unfold preFooterDoc
  apply asciiStr_joinNl
  intro s hs
  rcases List.mem_cons.1 hs with h | hs
  · rw [h]; exact asciiStr_template
  · rcases List.mem_map.1 hs with ⟨sec, hsec, hjoin⟩
    rcases genLoop_sections_shape target r _ _ _ _ sec hsec with ⟨n, j, hshape⟩
    rw [← hjoin, hshape]
    exact asciiStr_joinNl _ (asciiStr_mem_buildSection n r j)

theorem asciiStr_fullDoc (target : Nat) (r : Nat → Nat) : asciiStr (fullDoc target r) :=
  asciiStr_append _ _ (asciiStr_preFooterDoc target r) (asciiStr_footerText _ _)

theorem finalLines_eq (target : Nat) (r : Nat → Nat) :
    finalLines target r = actualLines target r + 13 := by
  unfold finalLines fullDoc actualLines
  rw [pyLineCount_append, pyLineCount_footerText]
  have h1 : 1 ≤ pyLineCount (preFooterDoc target r) := by simp [pyLineCount]
  omega


/-! ## Run-level facts -/


theorem templateLineCount_eq : templateLineCount = 88 := by decide

theorem tally_le_pyLineCount_joinNl (gens : List (List String)) :
    templateLineCount + (gens.map List.length).sum
      ≤ pyLineCount (joinNl (template :: gens.map joinNl)) := by
  rw [pyLineCount_joinNl_cons]
  have heq : templateLineCount = pyLineCount template := rfl
  rw [heq]
  have hsum : (gens.map List.length).sum ≤ ((gens.map joinNl).map pyLineCount).sum := by
    rw [List.map_map]
    exact List.sum_le_sum (fun sec _ => length_le_pyLineCount_joinNl sec)
  omega

theorem paraBlock_length (n : Nat) : ∀ c, (paraBlock n c).length = 2 * c := by
  intro c
  induction c with
  | zero => simp [paraBlock]
  | succ c ih => simp [paraBlock, ih]; omega

theorem itemBlock_length : ∀ c, (itemBlock c).length = c := by
  intro c
  induction c with
  | zero => simp [itemBlock]
  | succ c ih => simp [itemBlock, ih]

theorem buildSection_length_ge (n : Nat) (r : Nat → Nat) (i : Nat) :
    18 ≤ (buildSection n r i).length := by
  simp [buildSection, List.length_append, paraBlock_length, itemBlock_length, closingPart]
  omega

theorem lineCountFinal_le_actualLines (target : Nat) (r : Nat → Nat) :
    lineCountFinal target r ≤ actualLines target r := by
  unfold lineCountFinal actualLines preFooterDoc genSections genRun
  rw [genLoop_lineCount]
  exact tally_le_pyLineCount_joinNl _

theorem target_le_lineCountFinal (target : Nat) (r : Nat → Nat) :
    target ≤ lineCountFinal target r := by
  unfold lineCountFinal genRun
  exact genLoop_exit target r target 3 templateLineCount 0 (by omega)

theorem sectionNumFinal_eq (target : Nat) (r : Nat → Nat) :
    sectionNumFinal target r = 3 + (genSections target r).length := by
  unfold sectionNumFinal genSections genRun
  exact genLoop_sectionNum target r target 3 templateLineCount 0

theorem genLoop_no_iter (target : Nat) (r : Nat → Nat) (fuel s l i : Nat) (h : ¬ l < target) :
    genLoop target r fuel s l i = ([], s, l, i) := by
  cases fuel with
  | zero => rfl
  | succ fuel => simp [genLoop, if_neg h]

theorem genLoop_one_iter (target : Nat) (r : Nat → Nat) (fuel s l i : Nat)
    (hf : 1 ≤ fuel) (h : l < target) (h2 : ¬ l + (buildSection s r i).length < target) :
    genLoop target r fuel s l i
      = ([buildSection s r i], s + 1, l + (buildSection s r i).length, i + drawCount s) := by
  cases fuel with
  | zero => omega
  | succ fuel =>
    simp only [genLoop, if_pos h]
    rw [genLoop_no_iter _ _ _ _ _ _ h2]

theorem genRun_of_target_le (target : Nat) (r : Nat → Nat) (h : target ≤ templateLineCount) :
    genRun target r = ([], 3, templateLineCount, 0) := by
  unfold genRun
  exact genLoop_no_iter _ _ _ _ _ _ (by omega)

theorem genRun_100 (r : Nat → Nat) :
    genRun 100 r
      = ([buildSection 3 r 0], 4, templateLineCount + (buildSection 3 r 0).length, drawCount 3) := by
  unfold genRun
  have h18 := buildSection_length_ge 3 r 0
  have h88 : templateLineCount = 88 := templateLineCount_eq
  rw [genLoop_one_iter 100 r 100 3 templateLineCount 0 (by omega) (by omega) (by omega)]
  norm_num

theorem genSections_100 (r : Nat → Nat) :
    genSections 100 r = [buildSection 3 r 0] := by
  unfold genSections
  rw [genRun_100]


/-! ## The claims -/


/-- C1: for every threshold the `while` loop terminates (any sufficient fuel
yields the same, final, run) with final tally `line_count ≥ target`, and the
pre-footer document's newline-delimited line count is also `≥ target`; the
source's fixed threshold is the instance `target = 50000`. -/
theorem C1_threshold_reached (target : Nat) (r : Nat → Nat) :
    target ≤ lineCountFinal target r
    ∧ target ≤ actualLines target r
    ∧ ∀ fuel, target ≤ fuel + templateLineCount →
        genLoop target r fuel 3 templateLineCount 0 = genRun target r := by
  refine ⟨target_le_lineCountFinal target r,
    le_trans (target_le_lineCountFinal target r) (lineCountFinal_le_actualLines target r), ?_⟩
  intro fuel hf
  unfold genRun
  exact genLoop_stable target r fuel target 3 templateLineCount 0 hf (by omega)

/-- Witness for C1 at threshold 100 and fuel 300. -/
theorem C1_threshold_reached_witness :
    (100 : Nat) ≤ actualLines 100 (fun _ => 0)
    ∧ genLoop 100 (fun _ => 0) 300 3 templateLineCount 0 = genRun 100 (fun _ => 0) :=
  ⟨(C1_threshold_reached 100 (fun _ => 0)).2.1,
    (C1_threshold_reached 100 (fun _ => 0)).2.2 300 (by decide)⟩



/-- C2 (amended): each iteration increments `line_count` by `len(section)`,
the number of entries appended to the Python list (so the final tally is the
template's line count plus the sum of the entry counts); an entry count never
exceeds the section text's newline-delimited line count, but the claim's
stronger reading — increment equals the section text's newline-delimited line
count — fails whenever a multi-line code or table sample is embedded as a
single entry. -/
theorem C2_tally_counts_entries (target : Nat) (r : Nat → Nat) :
    lineCountFinal target r
      = templateLineCount + ((genSections target r).map List.length).sum
    ∧ ∀ sec ∈ genSections target r, sec.length ≤ pyLineCount (joinNl sec) := by
  constructor
  · unfold lineCountFinal genSections genRun
    exact genLoop_lineCount target r target 3 templateLineCount 0
  · intro sec _
    exact length_le_pyLineCount_joinNl sec

/-- Witness for C2 on the one-section run at threshold 100. -/
theorem C2_tally_counts_entries_witness :
    lineCountFinal 100 (fun _ => 0)
      = templateLineCount + ((genSections 100 (fun _ => 0)).map List.length).sum
    ∧ (buildSection 3 (fun _ => 0) 0).length
        ≤ pyLineCount (joinNl (buildSection 3 (fun _ => 0) 0)) :=
  ⟨(C2_tally_counts_entries 100 (fun _ => 0)).1,
    (C2_tally_counts_entries 100 (fun _ => 0)).2 (buildSection 3 (fun _ => 0) 0) (by decide)⟩

/-- C2 counterexample: at threshold 100 with the all-zero draw stream the
final tally is 110, but the template's line count plus the generated section's
newline-delimited line count is 121 (the section embeds an 12-line code
sample as one entry), so the tally does not equal that sum. -/
theorem C2_tally_counts_entries_counterexample :
    lineCountFinal 100 (fun _ => 0)
      ≠ templateLineCount
          + ((genSections 100 (fun _ => 0)).map (fun sec => pyLineCount (joinNl sec))).sum := by
  decide



/-- C3 (amended): the total-line-count figure interpolated into the footer is
`actual_lines`, the newline-delimited line count of the text preceding the
footer only; the footer's own lines are not included — appending the footer
adds exactly 13 further lines, so the written file has `actual_lines + 13`
lines. -/
theorem C3_footer_total_lines (target : Nat) (r : Nat → Nat) :
    actualLines target r = pyLineCount (preFooterDoc target r)
    ∧ finalLines target r = actualLines target r + 13 :=
  ⟨rfl, finalLines_eq target r⟩

/-- C3 counterexample: on the zero-section run (threshold 88) the footer
reports 88, yet pre-footer lines plus the footer's own line count is 102. -/
theorem C3_footer_total_lines_counterexample :
    actualLines 88 (fun _ => 0)
      ≠ pyLineCount (preFooterDoc 88 (fun _ => 0))
          + pyLineCount (footerText (actualLines 88 (fun _ => 0))
              (reportedSections 88 (fun _ => 0))) := by
  decide

/-- C4 (amended): the `Generated Sections` figure in the footer is
`section_num - 1`, which exceeds the number of sections generated by the loop
by exactly 2 (it counts the template's sections 1 and 2 as well). -/
theorem C4_reported_sections (target : Nat) (r : Nat → Nat) :
    reportedSections target r = (genSections target r).length + 2 := by
  unfold reportedSections
  rw [sectionNumFinal_eq]
  omega

/-- C4 counterexample: a zero-section run reports 2, not 0. -/
theorem C4_reported_sections_counterexample :
    reportedSections 88 (fun _ => 0) ≠ (genSections 88 (fun _ => 0)).length := by
  decide



/-- C5: the section counter starts at 3 and increases by exactly 1 per
generated section (`section_num` ends at `3 + #sections`), and the section at
0-based position `k` — the `(k+1)`-th generated section — carries number
`3 + k = 2 + (k+1)` in its `## Section N` heading, in its paragraph link
target (`paraText` embeds `https://example.com/N`), and in its
`#### Subsection N.1` closing heading. -/
theorem C5_section_numbering (target : Nat) (r : Nat → Nat) (k : Nat)
    (h : k < (genSections target r).length) :
    sectionNumFinal target r = 3 + (genSections target r).length
    ∧ ∃ sec, (genSections target r).get? k = some sec
        ∧ sec.head? = some (sectionHeading (3 + k))
        ∧ paraText (3 + k) 1 ∈ sec
        ∧ subsectionHeading (3 + k) ∈ sec := by
  refine ⟨sectionNumFinal_eq target r, ?_⟩
  obtain ⟨j, hj⟩ := genLoop_get target r target 3 templateLineCount 0 k h
  exact ⟨buildSection (3 + k) r j, hj, rfl,
    paraText_one_mem_buildSection _ _ _, subsectionHeading_mem_buildSection _ _ _⟩

/-- Witness for C5: the first generated section of the threshold-100 run is
numbered 3. -/
theorem C5_section_numbering_witness :
    sectionNumFinal 100 (fun _ => 0) = 3 + (genSections 100 (fun _ => 0)).length
    ∧ ∃ sec, (genSections 100 (fun _ => 0)).get? 0 = some sec
        ∧ sec.head? = some (sectionHeading 3)
        ∧ paraText 3 1 ∈ sec
        ∧ subsectionHeading 3 ∈ sec :=
  C5_section_numbering 100 (fun _ => 0) 0 (by decide)



/-- C6: a generated section contains one of the 4 fixed code samples iff its
number is divisible by 3, one of the 2 fixed table samples iff divisible by 4,
the blockquote iff divisible by 5, and the task-list lines iff divisible by 6
(representative first line stated for the latter two); and whenever two of
these fragments co-occur they appear in the order
code sample, table, blockquote, task list.  (`random.choice` is modelled as an
arbitrary draw reduced `mod` the pool size; the uniformity of the distribution
is not expressible in this embedding.) -/
theorem C6_conditional_fragments (n : Nat) (r : Nat → Nat) (i : Nat) :
    ((∃ c ∈ code_samples, c ∈ buildSection n r i) ↔ n % 3 = 0)
    ∧ ((∃ t ∈ table_samples, t ∈ buildSection n r i) ↔ n % 4 = 0)
    ∧ (("> This is a blockquote with important information." ∈ buildSection n r i) ↔ n % 5 = 0)
    ∧ (("- [ ] Unchecked task item" ∈ buildSection n r i) ↔ n % 6 = 0)
    ∧ (n % 3 = 0 → n % 4 = 0 → ∃ A B C : List String,
        buildSection n r i = A ++ pyChoice code_samples (r (i + 2))
          :: B ++ pyChoice table_samples (r (tableDrawIdx n i)) :: C)
    ∧ (n % 3 = 0 → n % 5 = 0 → ∃ A B C : List String,
        buildSection n r i = A ++ pyChoice code_samples (r (i + 2))
          :: B ++ "> This is a blockquote with important information." :: C)
    ∧ (n % 3 = 0 → n % 6 = 0 → ∃ A B C : List String,
        buildSection n r i = A ++ pyChoice code_samples (r (i + 2))
          :: B ++ "- [ ] Unchecked task item" :: C)
    ∧ (n % 4 = 0 → n % 5 = 0 → ∃ A B C : List String,
        buildSection n r i = A ++ pyChoice table_samples (r (tableDrawIdx n i))
          :: B ++ "> This is a blockquote with important information." :: C)
    ∧ (n % 4 = 0 → n % 6 = 0 → ∃ A B C : List String,
        buildSection n r i = A ++ pyChoice table_samples (r (tableDrawIdx n i))
          :: B ++ "- [ ] Unchecked task item" :: C)
    ∧ (n % 5 = 0 → n % 6 = 0 → ∃ A B C : List String,
        buildSection n r i = A ++ "> This is a blockquote with important information."
          :: B ++ "- [ ] Unchecked task item" :: C) :=
  ⟨codeFrag_mem_iff n r i, tableFrag_mem_iff n r i, quoteFrag_mem_iff n r i,
    taskFrag_mem_iff n r i,
    order_code_table n r i, order_code_quote n r i, order_code_task n r i,
    order_table_quote n r i, order_table_task n r i, order_quote_task n r i⟩

/-- Witness for C6 at section number 60, which is divisible by 3, 4, 5 and 6:
all six ordering conjuncts are discharged. -/
theorem C6_conditional_fragments_witness :
    (∃ A B C : List String,
      buildSection 60 (fun _ => 0) 0 = A ++ pyChoice code_samples 0
        :: B ++ pyChoice table_samples 0 :: C)
    ∧ (∃ A B C : List String,
      buildSection 60 (fun _ => 0) 0 = A ++ pyChoice code_samples 0
        :: B ++ "> This is a blockquote with important information." :: C)
    ∧ (∃ A B C : List String,
      buildSection 60 (fun _ => 0) 0 = A ++ pyChoice code_samples 0
        :: B ++ "- [ ] Unchecked task item" :: C)
    ∧ (∃ A B C : List String,
      buildSection 60 (fun _ => 0) 0 = A ++ pyChoice table_samples 0
        :: B ++ "> This is a blockquote with important information." :: C)
    ∧ (∃ A B C : List String,
      buildSection 60 (fun _ => 0) 0 = A ++ pyChoice table_samples 0
        :: B ++ "- [ ] Unchecked task item" :: C)
    ∧ (∃ A B C : List String,
      buildSection 60 (fun _ => 0) 0
        = A ++ "> This is a blockquote with important information."
            :: B ++ "- [ ] Unchecked task item" :: C) :=
  ⟨(C6_conditional_fragments 60 (fun _ => 0) 0).2.2.2.2.1 (by decide) (by decide),
    (C6_conditional_fragments 60 (fun _ => 0) 0).2.2.2.2.2.1 (by decide) (by decide),
    (C6_conditional_fragments 60 (fun _ => 0) 0).2.2.2.2.2.2.1 (by decide) (by decide),
    (C6_conditional_fragments 60 (fun _ => 0) 0).2.2.2.2.2.2.2.1 (by decide) (by decide),
    (C6_conditional_fragments 60 (fun _ => 0) 0).2.2.2.2.2.2.2.2.1 (by decide) (by decide),
    (C6_conditional_fragments 60 (fun _ => 0) 0).2.2.2.2.2.2.2.2.2 (by decide) (by decide)⟩



/-- C7 (amended): when the target threshold is at most the template's line
count (88), the loop body never runs and the output is exactly the template
followed by the footer, with zero generated sections; but at the spec's
example threshold 100 the template alone (88 lines) does **not** meet the
threshold, and exactly one section is generated. -/
theorem C7_template_meets_threshold (target : Nat) (r : Nat → Nat)
    (h : target ≤ templateLineCount) :
    genSections target r = []
    ∧ fullDoc target r = template ++ footerText templateLineCount 2
    ∧ (genSections 100 r).length = 1 := by
  have hrun := genRun_of_target_le target r h
  have hsec : genSections target r = [] := by unfold genSections; rw [hrun]
  refine ⟨hsec, ?_, by rw [genSections_100]; rfl⟩
  have hpre : preFooterDoc target r = template := by
    unfold preFooterDoc
    rw [hsec]
    rfl
  have hal : actualLines target r = templateLineCount := by
    unfold actualLines
    rw [hpre]
    rfl
  have hrs : reportedSections target r = 2 := by
    unfold reportedSections sectionNumFinal
    rw [hrun]
    rfl
  unfold fullDoc
  rw [hpre, hal, hrs]

/-- Witness for C7 at threshold 88, which the template does meet. -/
theorem C7_template_meets_threshold_witness :
    genSections 88 (fun _ => 0) = []
    ∧ fullDoc 88 (fun _ => 0) = template ++ footerText templateLineCount 2
    ∧ (genSections 100 (fun _ => 0)).length = 1 :=
  C7_template_meets_threshold 88 (fun _ => 0) (by decide)

/-- C7 counterexample: the template is 88 lines, so it does not meet the
spec's example threshold 100, and that threshold produces one generated
section rather than zero. -/
theorem C7_template_meets_threshold_counterexample :
    templateLineCount < 100 ∧ (genSections 100 (fun _ => 0)).length ≠ 0 := by
  decide

/-- C8: the generator is a deterministic function of the sequence of random
draws: two draw streams that agree on every draw the run consumes produce
byte-identical output documents (and consume the same number of draws). -/
theorem C8_determinism (target : Nat) (r₁ r₂ : Nat → Nat)
    (h : ∀ j, j < drawsConsumed target r₁ → r₁ j = r₂ j) :
    fullDoc target r₁ = fullDoc target r₂
    ∧ drawsConsumed target r₁ = drawsConsumed target r₂ := by
  have hrun : genRun target r₁ = genRun target r₂ := by
    unfold genRun
    apply genLoop_congr
    intro j _ hj
    exact h j hj
  constructor
  · unfold fullDoc preFooterDoc actualLines preFooterDoc reportedSections sectionNumFinal
      genSections
    rw [hrun]
  · unfold drawsConsumed
    rw [hrun]

/-- Witness for C8: two streams that agree on the three consumed draws of the
threshold-89 run but differ later give identical documents. -/
theorem C8_determinism_witness :
    fullDoc 89 (fun _ => 0) = fullDoc 89 (fun j => if j < 3 then 0 else 7) :=
  (C8_determinism 89 (fun _ => 0) (fun j => if j < 3 then 0 else 7) (by decide)).1



/-- C9: the console-reported file size `len(full_doc)` (Python's character
count) equals the byte length of the UTF-8 encoding of the written text,
because every character of the template, the samples, the generated sections
and the footer is ASCII. -/
theorem C9_file_size_bytes (target : Nat) (r : Nat → Nat) :
    fileSize target r = (fullDoc target r).utf8ByteSize
    ∧ ∀ c ∈ (fullDoc target r).data, c.toNat < 128 := by
  refine ⟨?_, asciiStr_fullDoc target r⟩
  unfold fileSize
  exact (utf8ByteSize_of_ascii _ (asciiStr_fullDoc target r)).symm

/-- Witness for C9 on the zero-section run: the first character of the
document is ASCII and the size identity holds. -/
theorem C9_file_size_bytes_witness :
    fileSize 88 (fun _ => 0) = (fullDoc 88 (fun _ => 0)).utf8ByteSize
    ∧ ('#' : Char).toNat < 128 :=
  ⟨(C9_file_size_bytes 88 (fun _ => 0)).1,
    (C9_file_size_bytes 88 (fun _ => 0)).2 '#' (by decide)⟩

/-- C10: the running tally underestimates the true line count: after any
number `k` of iterations the tally (template line count plus entry counts of
the first `k` sections) is at most the newline-delimited line count of the
blocks concatenated so far; consequently at exit the pre-footer text of the
fixed 50000-threshold run has at least 50000 lines. -/
theorem C10_tally_underestimates (target : Nat) (r : Nat → Nat) (k : Nat) :
    templateLineCount + (((genSections target r).take k).map List.length).sum
      ≤ pyLineCount (joinNl (template :: ((genSections target r).take k).map joinNl))
    ∧ lineCountFinal target r ≤ actualLines target r
    ∧ 50000 ≤ actualLines 50000 r :=
  ⟨tally_le_pyLineCount_joinNl _, lineCountFinal_le_actualLines target r,
    le_trans (target_le_lineCountFinal 50000 r) (lineCountFinal_le_actualLines 50000 r)⟩


end VoidReader
